import Mathlib

/-!
# Verification of the Hybrid Investment Policy projection engine

A shallow embedding of `calculate_policy_outcomes` from `Policy_app.py`:
a month-by-month simulation comparing a fixed-benefit baseline scenario
with a hybrid scenario consisting of a SIP accumulation phase followed by
an SWP decumulation phase.  Monetary amounts and rates are modelled as
rationals; the month loop is modelled as iteration of a step function on
an explicit simulation state, and the returned DataFrame as the list of
per-month records.
-/

set_option autoImplicit false

namespace HybridPolicy

/-- The eight scalar inputs of `calculate_policy_outcomes`
(`Policy_app.py`, lines 40-44).  Ages and the SIP duration are integers;
monetary amounts and the four fractional rates are rationals. -/
structure Params where
  current_age : ℤ
  monthly_survival_benefit : ℚ
  policy_end_age : ℤ
  sip_duration_years : ℤ
  sip_annual_return_rate : ℚ
  corpus_annual_growth_rate : ℚ
  swp_initial_annual_withdrawal_rate : ℚ
  swp_annual_payout_growth_rate : ℚ
deriving Repr, DecidableEq

/-- `total_months = (policy_end_age - current_age) * 12` (line 51-52). -/
def Params.total_months (p : Params) : ℤ :=
  (p.policy_end_age - p.current_age) * 12

/-- `sip_duration_months = sip_duration_years * 12` (line 53). -/
def Params.sip_duration_months (p : Params) : ℤ :=
  p.sip_duration_years * 12

/-- `monthly_sip_return_rate = sip_annual_return_rate / 12` (line 55). -/
def Params.monthly_sip_return_rate (p : Params) : ℚ :=
  p.sip_annual_return_rate / 12

/-- `monthly_corpus_growth_rate = corpus_annual_growth_rate / 12` (line 56). -/
def Params.monthly_corpus_growth_rate (p : Params) : ℚ :=
  p.corpus_annual_growth_rate / 12

/-- The mutable simulation state (lines 60-67), one copy per run. -/
structure SimState where
  primary_cumulative_income : ℚ
  hybrid_sip_corpus : ℚ
  hybrid_swp_corpus : ℚ
  hybrid_cumulative_total_income : ℚ
  scheduled_last_year_swp_monthly_payout : ℚ
  swp_year_counter : ℕ
  current_target_swp_monthly_payout : ℚ
deriving Repr, DecidableEq

/-- The all-zero initial state (lines 61-67). -/
def initState : SimState :=
  { primary_cumulative_income := 0
    hybrid_sip_corpus := 0
    hybrid_swp_corpus := 0
    hybrid_cumulative_total_income := 0
    scheduled_last_year_swp_monthly_payout := 0
    swp_year_counter := 0
    current_target_swp_monthly_payout := 0 }

/-- One row of the returned DataFrame (lines 132-148). -/
structure MonthlyRecord where
  MonthIndex : ℕ
  Age : ℚ
  PolicyYear : ℕ
  MonthInPolicyYear : ℕ
  Primary_MonthlyIncome : ℚ
  Primary_CumulativeIncome : ℚ
  Hybrid_SurvivalBenefitReceived : ℚ
  Hybrid_SIPInvestment : ℚ
  Hybrid_SIPCorpus_EOM : ℚ
  Hybrid_SWPPayout : ℚ
  Hybrid_SWPCorpus_EOM : ℚ
  Hybrid_TotalMonthlyIncome : ℚ
  Hybrid_CumulativeTotalIncome : ℚ
  SWP_Year : ℕ
  Target_SWP_Payout : ℚ
deriving Repr, DecidableEq

/-- Lines 99-104: the one-time transfer on the first SWP month.  The SWP
corpus is set to the final SIP corpus, the year counter to 1, and both the
current target payout and the last scheduled payout to
`corpus * swp_initial_annual_withdrawal_rate / 12`. -/
def swpTransfer (p : Params) (s : SimState) : SimState :=
  { s with
    hybrid_swp_corpus := s.hybrid_sip_corpus
    swp_year_counter := 1
    current_target_swp_monthly_payout :=
      s.hybrid_sip_corpus * p.swp_initial_annual_withdrawal_rate / 12
    scheduled_last_year_swp_monthly_payout :=
      s.hybrid_sip_corpus * p.swp_initial_annual_withdrawal_rate / 12 }

/-- Lines 106-109: the anniversary escalation.  The counter is incremented
and the target payout becomes the last scheduled payout grown by
`swp_annual_payout_growth_rate`. -/
def swpEscalate (p : Params) (s : SimState) : SimState :=
  { s with
    swp_year_counter := s.swp_year_counter + 1
    current_target_swp_monthly_payout :=
      s.scheduled_last_year_swp_monthly_payout * (1 + p.swp_annual_payout_growth_rate)
    scheduled_last_year_swp_monthly_payout :=
      s.scheduled_last_year_swp_monthly_payout * (1 + p.swp_annual_payout_growth_rate) }

/-- Lines 99-109 combined: the state after the transfer conditional
(`month_index == sip_duration_months`) and the escalation conditional
(`(month_index - sip_duration_months) > 0` and divisible by 12). -/
def swpStateAfter (p : Params) (m : ℕ) (s : SimState) : SimState :=
  let s1 := if (m : ℤ) = p.sip_duration_months then swpTransfer p s else s
  if 0 < (m : ℤ) - p.sip_duration_months ∧ ((m : ℤ) - p.sip_duration_months) % 12 = 0 then
    swpEscalate p s1
  else s1

/-- Lines 111-123: the withdrawal computation.  Returns the pair
`(actual_swp_payout_this_month, hybrid_swp_corpus)` before the final
defensive clamp.  A depleted corpus pays nothing; otherwise the corpus
grows for one month and either is fully paid out (when the target meets or
exceeds it) or pays exactly the target. -/
def swpWithdraw (p : Params) (s : SimState) : ℚ × ℚ :=
  if s.hybrid_swp_corpus ≤ 0 then (0, 0)
  else
    let corpus_after_growth :=
      s.hybrid_swp_corpus + s.hybrid_swp_corpus * p.monthly_corpus_growth_rate
    if s.current_target_swp_monthly_payout ≥ corpus_after_growth then
      (corpus_after_growth, 0)
    else
      (s.current_target_swp_monthly_payout,
       corpus_after_growth - s.current_target_swp_monthly_payout)

/-- Line 125: `if hybrid_swp_corpus < 0: hybrid_swp_corpus = 0.0`. -/
def clampCorpus (c : ℚ) : ℚ :=
  if c < 0 then 0 else c

/-- One iteration of the month loop in the SIP phase
(`month_index < sip_duration_months`, lines 84-93), returning the new
state and the appended record (lines 132-148). -/
def sipStep (p : Params) (m : ℕ) (s : SimState) : SimState × MonthlyRecord :=
  let sip := s.hybrid_sip_corpus + s.hybrid_sip_corpus * p.monthly_sip_return_rate
              + p.monthly_survival_benefit
  ({ s with
      primary_cumulative_income :=
        s.primary_cumulative_income + p.monthly_survival_benefit
      hybrid_sip_corpus := sip
      hybrid_cumulative_total_income :=
        s.hybrid_cumulative_total_income + p.monthly_survival_benefit },
   { MonthIndex := m
     Age := (p.current_age : ℚ) + (m : ℚ) / 12
     PolicyYear := m / 12 + 1
     MonthInPolicyYear := m % 12 + 1
     Primary_MonthlyIncome := p.monthly_survival_benefit
     Primary_CumulativeIncome := s.primary_cumulative_income + p.monthly_survival_benefit
     Hybrid_SurvivalBenefitReceived := p.monthly_survival_benefit
     Hybrid_SIPInvestment := p.monthly_survival_benefit
     Hybrid_SIPCorpus_EOM := sip
     Hybrid_SWPPayout := 0
     Hybrid_SWPCorpus_EOM := 0
     Hybrid_TotalMonthlyIncome := p.monthly_survival_benefit
     Hybrid_CumulativeTotalIncome :=
       s.hybrid_cumulative_total_income + p.monthly_survival_benefit
     SWP_Year := 0
     Target_SWP_Payout := 0 })

/-- One iteration of the month loop in the SWP phase (lines 95-128),
returning the new state and the appended record. -/
def swpStep (p : Params) (m : ℕ) (s : SimState) : SimState × MonthlyRecord :=
  let s2 := swpStateAfter p m s
  let pr := swpWithdraw p s2
  let corpus := clampCorpus pr.2
  let total := p.monthly_survival_benefit + pr.1
  ({ s2 with
      primary_cumulative_income :=
        s.primary_cumulative_income + p.monthly_survival_benefit
      hybrid_swp_corpus := corpus
      hybrid_cumulative_total_income := s.hybrid_cumulative_total_income + total },
   { MonthIndex := m
     Age := (p.current_age : ℚ) + (m : ℚ) / 12
     PolicyYear := m / 12 + 1
     MonthInPolicyYear := m % 12 + 1
     Primary_MonthlyIncome := p.monthly_survival_benefit
     Primary_CumulativeIncome := s.primary_cumulative_income + p.monthly_survival_benefit
     Hybrid_SurvivalBenefitReceived := p.monthly_survival_benefit
     Hybrid_SIPInvestment := 0
     Hybrid_SIPCorpus_EOM := s2.hybrid_sip_corpus
     Hybrid_SWPPayout := pr.1
     Hybrid_SWPCorpus_EOM := corpus
     Hybrid_TotalMonthlyIncome := total
     Hybrid_CumulativeTotalIncome := s.hybrid_cumulative_total_income + total
     SWP_Year := s2.swp_year_counter
     Target_SWP_Payout := s2.current_target_swp_monthly_payout })

/-- One full iteration of the month loop (lines 69-148): phase selection
on `month_index < sip_duration_months`. -/
def stepMonth (p : Params) (m : ℕ) (s : SimState) : SimState × MonthlyRecord :=
  if (m : ℤ) < p.sip_duration_months then sipStep p m s else swpStep p m s

/-- The simulation state after `m` completed loop iterations;
`simStates p 0` is the initial state of lines 61-67. -/
def simStates (p : Params) : ℕ → SimState
  | 0 => initState
  | m + 1 => (stepMonth p m (simStates p m)).1

/-- The record appended during loop iteration `m`. -/
def monthlyRecord (p : Params) (m : ℕ) : MonthlyRecord :=
  (stepMonth p m (simStates p m)).2

/-- The full output of `calculate_policy_outcomes`: one record per month
of `range(total_months)` (line 69; `range` of a non-positive bound is
empty, hence `Int.toNat`). -/
def calculate_policy_outcomes (p : Params) : List MonthlyRecord :=
  (List.range p.total_months.toNat).map (monthlyRecord p)

/-- The validity assumptions the spec places on a parameter set:
`policy_end_age > current_age`, a positive monthly benefit, and
nonnegative rate fractions. -/
abbrev ValidParams (p : Params) : Prop :=
  p.current_age < p.policy_end_age ∧
  0 < p.monthly_survival_benefit ∧
  0 ≤ p.sip_annual_return_rate ∧
  0 ≤ p.corpus_annual_growth_rate ∧
  0 ≤ p.swp_initial_annual_withdrawal_rate ∧
  0 ≤ p.swp_annual_payout_growth_rate

/-- Nonnegativity of the monetary state components, maintained throughout
a run with valid parameters. -/
def StateInv (s : SimState) : Prop :=
  0 ≤ s.hybrid_sip_corpus ∧ 0 ≤ s.hybrid_swp_corpus ∧
  0 ≤ s.current_target_swp_monthly_payout ∧
  0 ≤ s.scheduled_last_year_swp_monthly_payout

/-- Concrete parameter set in the style of the spec's first test scenario:
ages 40 to 41, benefit 10000, zero-length SIP (the transition happens at
month 0 with a zero corpus), all rates zero. -/
def pA : Params :=
  { current_age := 40, monthly_survival_benefit := 10000, policy_end_age := 41,
    sip_duration_years := 0, sip_annual_return_rate := 0,
    corpus_annual_growth_rate := 0, swp_initial_annual_withdrawal_rate := 0,
    swp_annual_payout_growth_rate := 0 }

/-- Concrete parameter set with a one-year SIP inside a three-year run and
an aggressive withdrawal rate, so the corpus depletes and later
anniversaries still occur. -/
def pB : Params :=
  { current_age := 40, monthly_survival_benefit := 1000, policy_end_age := 43,
    sip_duration_years := 1, sip_annual_return_rate := 0,
    corpus_annual_growth_rate := 0, swp_initial_annual_withdrawal_rate := 6,
    swp_annual_payout_growth_rate := 1 }

/-- Concrete parameter set whose derived quantities are nonsensical:
`sip_duration_months = 24` exceeds `total_months = 12`. -/
def pBad : Params :=
  { current_age := 40, monthly_survival_benefit := 10000, policy_end_age := 41,
    sip_duration_years := 2, sip_annual_return_rate := 15/100,
    corpus_annual_growth_rate := 15/100,
    swp_initial_annual_withdrawal_rate := 12/100,
    swp_annual_payout_growth_rate := 5/100 }

/-- Degenerate concrete parameter set: equal ages give
`total_months = 0`, with a zero-length SIP, so the run is empty. -/
def pC : Params :=
  { current_age := 40, monthly_survival_benefit := 10000, policy_end_age := 40,
    sip_duration_years := 0, sip_annual_return_rate := 0,
    corpus_annual_growth_rate := 0, swp_initial_annual_withdrawal_rate := 0,
    swp_annual_payout_growth_rate := 0 }

section BranchLemmas

variable (p : Params) (s : SimState) (m : ℕ)

lemma stepMonth_sip (h : (m : ℤ) < p.sip_duration_months) :
    stepMonth p m s = sipStep p m s := by
  simp [stepMonth, h]

lemma stepMonth_swp (h : ¬ (m : ℤ) < p.sip_duration_months) :
    stepMonth p m s = swpStep p m s := by
  simp [stepMonth, h]

lemma sipStep_fst_primary :
    (sipStep p m s).1.primary_cumulative_income
      = s.primary_cumulative_income + p.monthly_survival_benefit := rfl

lemma sipStep_fst_sip :
    (sipStep p m s).1.hybrid_sip_corpus
      = s.hybrid_sip_corpus + s.hybrid_sip_corpus * p.monthly_sip_return_rate
          + p.monthly_survival_benefit := rfl

lemma sipStep_fst_swp :
    (sipStep p m s).1.hybrid_swp_corpus = s.hybrid_swp_corpus := rfl

lemma sipStep_fst_hybridCum :
    (sipStep p m s).1.hybrid_cumulative_total_income
      = s.hybrid_cumulative_total_income + p.monthly_survival_benefit := rfl

lemma sipStep_fst_counter :
    (sipStep p m s).1.swp_year_counter = s.swp_year_counter := rfl

lemma sipStep_fst_target :
    (sipStep p m s).1.current_target_swp_monthly_payout
      = s.current_target_swp_monthly_payout := rfl

lemma sipStep_fst_sched :
    (sipStep p m s).1.scheduled_last_year_swp_monthly_payout
      = s.scheduled_last_year_swp_monthly_payout := rfl

lemma sipStep_snd (r : MonthlyRecord) (h : r = (sipStep p m s).2) :
    r.Primary_CumulativeIncome = s.primary_cumulative_income + p.monthly_survival_benefit ∧
    r.Hybrid_SIPCorpus_EOM = (sipStep p m s).1.hybrid_sip_corpus ∧
    r.Hybrid_SWPPayout = 0 ∧
    r.Hybrid_SWPCorpus_EOM = 0 ∧
    r.Hybrid_TotalMonthlyIncome = p.monthly_survival_benefit ∧
    r.Hybrid_CumulativeTotalIncome
      = s.hybrid_cumulative_total_income + p.monthly_survival_benefit ∧
    r.SWP_Year = 0 ∧
    r.Target_SWP_Payout = 0 := by
  subst h
  exact ⟨rfl, rfl, rfl, rfl, rfl, rfl, rfl, rfl⟩

lemma swpStateAfter_sip_corpus :
    (swpStateAfter p m s).hybrid_sip_corpus = s.hybrid_sip_corpus := by
  unfold swpStateAfter swpTransfer swpEscalate
  split_ifs <;> rfl

lemma swpStateAfter_primary :
    (swpStateAfter p m s).primary_cumulative_income = s.primary_cumulative_income := by
  unfold swpStateAfter swpTransfer swpEscalate
  split_ifs <;> rfl

lemma swpStateAfter_hybridCum :
    (swpStateAfter p m s).hybrid_cumulative_total_income
      = s.hybrid_cumulative_total_income := by
  unfold swpStateAfter swpTransfer swpEscalate
  split_ifs <;> rfl

lemma swpStep_fst_primary :
    (swpStep p m s).1.primary_cumulative_income
      = s.primary_cumulative_income + p.monthly_survival_benefit := rfl

lemma swpStep_fst_sip :
    (swpStep p m s).1.hybrid_sip_corpus = s.hybrid_sip_corpus := by
  show (swpStateAfter p m s).hybrid_sip_corpus = s.hybrid_sip_corpus
  exact swpStateAfter_sip_corpus p s m

lemma swpStep_fst_swp :
    (swpStep p m s).1.hybrid_swp_corpus
      = clampCorpus (swpWithdraw p (swpStateAfter p m s)).2 := rfl

lemma swpStep_fst_hybridCum :
    (swpStep p m s).1.hybrid_cumulative_total_income
      = s.hybrid_cumulative_total_income
          + (p.monthly_survival_benefit + (swpWithdraw p (swpStateAfter p m s)).1) := rfl

lemma swpStep_fst_counter :
    (swpStep p m s).1.swp_year_counter = (swpStateAfter p m s).swp_year_counter := rfl

lemma swpStep_fst_target :
    (swpStep p m s).1.current_target_swp_monthly_payout
      = (swpStateAfter p m s).current_target_swp_monthly_payout := rfl

lemma swpStep_fst_sched :
    (swpStep p m s).1.scheduled_last_year_swp_monthly_payout
      = (swpStateAfter p m s).scheduled_last_year_swp_monthly_payout := rfl

lemma swpStep_snd (r : MonthlyRecord) (h : r = (swpStep p m s).2) :
    r.Primary_CumulativeIncome = s.primary_cumulative_income + p.monthly_survival_benefit ∧
    r.Hybrid_SIPCorpus_EOM = (swpStateAfter p m s).hybrid_sip_corpus ∧
    r.Hybrid_SWPPayout = (swpWithdraw p (swpStateAfter p m s)).1 ∧
    r.Hybrid_SWPCorpus_EOM = clampCorpus (swpWithdraw p (swpStateAfter p m s)).2 ∧
    r.Hybrid_TotalMonthlyIncome
      = p.monthly_survival_benefit + (swpWithdraw p (swpStateAfter p m s)).1 ∧
    r.Hybrid_CumulativeTotalIncome
      = s.hybrid_cumulative_total_income
          + (p.monthly_survival_benefit + (swpWithdraw p (swpStateAfter p m s)).1) ∧
    r.SWP_Year = (swpStateAfter p m s).swp_year_counter ∧
    r.Target_SWP_Payout = (swpStateAfter p m s).current_target_swp_monthly_payout := by
  subst h
  exact ⟨rfl, rfl, rfl, rfl, rfl, rfl, rfl, rfl⟩

end BranchLemmas

section StateLemmas

variable (p : Params)

lemma total_months_pos (h : p.current_age < p.policy_end_age) :
    0 < p.total_months := by
  unfold Params.total_months
  omega

lemma clampCorpus_nonneg (c : ℚ) : 0 ≤ clampCorpus c := by
  unfold clampCorpus
  split_ifs with h
  · exact le_refl 0
  · exact not_lt.mp h

lemma swpStateAfter_of_eq (s : SimState) (m : ℕ)
    (hm : (m : ℤ) = p.sip_duration_months) :
    swpStateAfter p m s = swpTransfer p s := by
  unfold swpStateAfter
  rw [if_pos hm, if_neg (by omega)]

lemma swpStateAfter_of_gt (s : SimState) (m : ℕ)
    (hm : p.sip_duration_months < (m : ℤ)) :
    swpStateAfter p m s
      = if ((m : ℤ) - p.sip_duration_months) % 12 = 0 then swpEscalate p s else s := by
  unfold swpStateAfter
  rw [if_neg (show ¬ (m : ℤ) = p.sip_duration_months by omega)]
  by_cases hx : ((m : ℤ) - p.sip_duration_months) % 12 = 0
  · rw [if_pos (show 0 < (m : ℤ) - p.sip_duration_months ∧
        ((m : ℤ) - p.sip_duration_months) % 12 = 0 from ⟨by omega, hx⟩), if_pos hx]
  · rw [if_neg (show ¬ (0 < (m : ℤ) - p.sip_duration_months ∧
        ((m : ℤ) - p.sip_duration_months) % 12 = 0) from fun hc => hx hc.2), if_neg hx]

lemma swpEscalate_swp_corpus (s : SimState) :
    (swpEscalate p s).hybrid_swp_corpus = s.hybrid_swp_corpus := rfl

lemma swpWithdraw_of_zero (s : SimState) (h : s.hybrid_swp_corpus = 0) :
    swpWithdraw p s = (0, 0) := by
  unfold swpWithdraw
  rw [if_pos (by rw [h])]

lemma swpWithdraw_fst_nonneg (s : SimState)
    (hg : 0 ≤ p.corpus_annual_growth_rate)
    (h1 : 0 ≤ s.hybrid_swp_corpus)
    (h2 : 0 ≤ s.current_target_swp_monthly_payout) :
    0 ≤ (swpWithdraw p s).1 := by
  unfold swpWithdraw
  have hgm : 0 ≤ s.hybrid_swp_corpus * p.monthly_corpus_growth_rate :=
    mul_nonneg h1 (div_nonneg hg (by norm_num))
  dsimp only
  split_ifs with hc ht
  · exact le_refl 0
  · dsimp only
    linarith
  · exact h2

lemma swpTransfer_inv (s : SimState)
    (hw : 0 ≤ p.swp_initial_annual_withdrawal_rate) (h : StateInv s) :
    StateInv (swpTransfer p s) := by
  obtain ⟨h1, h2, h3, h4⟩ := h
  have ht : 0 ≤ s.hybrid_sip_corpus * p.swp_initial_annual_withdrawal_rate / 12 :=
    div_nonneg (mul_nonneg h1 hw) (by norm_num)
  exact ⟨h1, h1, ht, ht⟩

lemma swpEscalate_inv (s : SimState)
    (hg : 0 ≤ p.swp_annual_payout_growth_rate) (h : StateInv s) :
    StateInv (swpEscalate p s) := by
  obtain ⟨h1, h2, h3, h4⟩ := h
  have ht : 0 ≤ s.scheduled_last_year_swp_monthly_payout
      * (1 + p.swp_annual_payout_growth_rate) :=
    mul_nonneg h4 (by linarith)
  exact ⟨h1, h2, ht, ht⟩

lemma swpStateAfter_inv (s : SimState) (m : ℕ)
    (hw : 0 ≤ p.swp_initial_annual_withdrawal_rate)
    (hg : 0 ≤ p.swp_annual_payout_growth_rate) (h : StateInv s) :
    StateInv (swpStateAfter p m s) := by
  unfold swpStateAfter
  split_ifs with h1 h2 h3
  · exact swpEscalate_inv p _ hg (swpTransfer_inv p s hw h)
  · exact swpTransfer_inv p s hw h
  · exact swpEscalate_inv p _ hg h
  · exact h

lemma stepMonth_inv (m : ℕ) (s : SimState) (hv : ValidParams p) (h : StateInv s) :
    StateInv (stepMonth p m s).1 := by
  obtain ⟨hage, hb, hr, hg, hw, hpg⟩ := hv
  by_cases hm : (m : ℤ) < p.sip_duration_months
  · rw [stepMonth_sip p s m hm]
    obtain ⟨h1, h2, h3, h4⟩ := h
    refine ⟨?_, h2, h3, h4⟩
    rw [sipStep_fst_sip]
    have hmr : 0 ≤ s.hybrid_sip_corpus * p.monthly_sip_return_rate :=
      mul_nonneg h1 (div_nonneg hr (by norm_num))
    linarith
  · rw [stepMonth_swp p s m hm]
    have h2 := swpStateAfter_inv p s m hw hpg h
    refine ⟨?_, ?_, ?_, ?_⟩
    · rw [swpStep_fst_sip]
      exact h.1
    · rw [swpStep_fst_swp]
      exact clampCorpus_nonneg _
    · rw [swpStep_fst_target]
      exact h2.2.2.1
    · rw [swpStep_fst_sched]
      exact h2.2.2.2

lemma simStates_inv (hv : ValidParams p) : ∀ m, StateInv (simStates p m) := by
  intro m
  induction m with
  | zero => exact ⟨le_refl 0, le_refl 0, le_refl 0, le_refl 0⟩
  | succ n ih => exact stepMonth_inv p n (simStates p n) hv ih

lemma step_primary (m : ℕ) (s : SimState) :
    (stepMonth p m s).1.primary_cumulative_income
      = s.primary_cumulative_income + p.monthly_survival_benefit := by
  by_cases h : (m : ℤ) < p.sip_duration_months
  · rw [stepMonth_sip p s m h, sipStep_fst_primary]
  · rw [stepMonth_swp p s m h, swpStep_fst_primary]

lemma simStates_primary (m : ℕ) :
    (simStates p m).primary_cumulative_income
      = p.monthly_survival_benefit * m := by
  induction m with
  | zero => simp [simStates, initState]
  | succ n ih =>
      show (stepMonth p n (simStates p n)).1.primary_cumulative_income = _
      rw [step_primary, ih]
      push_cast
      ring

lemma simStates_sip_frozen (hA0 : 0 ≤ p.sip_duration_months) :
    ∀ k, p.sip_duration_months.toNat ≤ k →
      (simStates p k).hybrid_sip_corpus
        = (simStates p p.sip_duration_months.toNat).hybrid_sip_corpus := by
  intro k hk
  have hcast : (p.sip_duration_months.toNat : ℤ) = p.sip_duration_months :=
    Int.toNat_of_nonneg hA0
  induction k, hk using Nat.le_induction with
  | base => rfl
  | succ n hn ih =>
      show (stepMonth p n (simStates p n)).1.hybrid_sip_corpus = _
      have hnA : ¬ (n : ℤ) < p.sip_duration_months := by omega
      rw [stepMonth_swp p _ n hnA, swpStep_fst_sip, ih]

lemma swp_zero_propagate (k : ℕ)
    (hk : p.sip_duration_months < (k : ℤ))
    (hz : (simStates p k).hybrid_swp_corpus = 0) :
    ∀ j, k ≤ j → (simStates p j).hybrid_swp_corpus = 0 := by
  intro j hj
  induction j, hj using Nat.le_induction with
  | base => exact hz
  | succ n hn ih =>
      show (stepMonth p n (simStates p n)).1.hybrid_swp_corpus = 0
      have hnA : ¬ (n : ℤ) < p.sip_duration_months := by omega
      rw [stepMonth_swp p _ n hnA, swpStep_fst_swp]
      have hcorpus : (swpStateAfter p n (simStates p n)).hybrid_swp_corpus = 0 := by
        rw [swpStateAfter_of_gt p _ n (by omega)]
        split_ifs with hesc
        · rw [swpEscalate_swp_corpus]
          exact ih
        · exact ih
      rw [swpWithdraw_of_zero p _ hcorpus]
      unfold clampCorpus
      norm_num

end StateLemmas

section RecordLemmas

variable (p : Params)

lemma calc_length :
    (calculate_policy_outcomes p).length = p.total_months.toNat := by
  simp [calculate_policy_outcomes]

lemma calc_get (i : ℕ) (hi : i < (calculate_policy_outcomes p).length) :
    (calculate_policy_outcomes p).get ⟨i, hi⟩ = monthlyRecord p i := by
  simp [calculate_policy_outcomes]

lemma record_primaryCum (m : ℕ) :
    (monthlyRecord p m).Primary_CumulativeIncome
      = p.monthly_survival_benefit * (m + 1) := by
  unfold monthlyRecord
  have key : (stepMonth p m (simStates p m)).2.Primary_CumulativeIncome
      = (simStates p m).primary_cumulative_income + p.monthly_survival_benefit := by
    by_cases h : (m : ℤ) < p.sip_duration_months
    · rw [stepMonth_sip p _ m h]
      exact (sipStep_snd p (simStates p m) m _ rfl).1
    · rw [stepMonth_swp p _ m h]
      exact (swpStep_snd p (simStates p m) m _ rfl).1
  rw [key, simStates_primary]
  ring

lemma record_hybridCum (m : ℕ) :
    (monthlyRecord p m).Hybrid_CumulativeTotalIncome
      = (simStates p (m + 1)).hybrid_cumulative_total_income := by
  unfold monthlyRecord
  show _ = (stepMonth p m (simStates p m)).1.hybrid_cumulative_total_income
  by_cases h : (m : ℤ) < p.sip_duration_months
  · rw [stepMonth_sip p _ m h,
      (sipStep_snd p (simStates p m) m _ rfl).2.2.2.2.2.1, sipStep_fst_hybridCum]
  · rw [stepMonth_swp p _ m h,
      (swpStep_snd p (simStates p m) m _ rfl).2.2.2.2.2.1, swpStep_fst_hybridCum]

lemma record_sipEOM (m : ℕ) :
    (monthlyRecord p m).Hybrid_SIPCorpus_EOM
      = (simStates p (m + 1)).hybrid_sip_corpus := by
  unfold monthlyRecord
  show _ = (stepMonth p m (simStates p m)).1.hybrid_sip_corpus
  by_cases h : (m : ℤ) < p.sip_duration_months
  · rw [stepMonth_sip p _ m h, (sipStep_snd p (simStates p m) m _ rfl).2.1]
  · rw [stepMonth_swp p _ m h, (swpStep_snd p (simStates p m) m _ rfl).2.1,
      swpStep_fst_sip, swpStateAfter_sip_corpus]

lemma record_swpEOM (m : ℕ) (h : ¬ (m : ℤ) < p.sip_duration_months) :
    (monthlyRecord p m).Hybrid_SWPCorpus_EOM
      = (simStates p (m + 1)).hybrid_swp_corpus := by
  unfold monthlyRecord
  show _ = (stepMonth p m (simStates p m)).1.hybrid_swp_corpus
  rw [stepMonth_swp p _ m h, (swpStep_snd p (simStates p m) m _ rfl).2.2.2.1,
    swpStep_fst_swp]

lemma step_hybridCum_mono (m : ℕ) (s : SimState) (hv : ValidParams p)
    (hs : StateInv s) :
    s.hybrid_cumulative_total_income + p.monthly_survival_benefit
      ≤ (stepMonth p m s).1.hybrid_cumulative_total_income := by
  obtain ⟨hage, hb, hr, hg, hw, hpg⟩ := hv
  by_cases h : (m : ℤ) < p.sip_duration_months
  · rw [stepMonth_sip p s m h, sipStep_fst_hybridCum]
  · rw [stepMonth_swp p s m h, swpStep_fst_hybridCum]
    have h2 := swpStateAfter_inv p s m hw hpg hs
    have hp := swpWithdraw_fst_nonneg p _ hg h2.2.1 h2.2.2.1
    linarith

lemma simStates_cum_le (hv : ValidParams p) :
    ∀ m, (simStates p m).primary_cumulative_income
      ≤ (simStates p m).hybrid_cumulative_total_income := by
  intro m
  induction m with
  | zero => exact le_refl 0
  | succ n ih =>
      show (stepMonth p n (simStates p n)).1.primary_cumulative_income
        ≤ (stepMonth p n (simStates p n)).1.hybrid_cumulative_total_income
      rw [step_primary]
      have := step_hybridCum_mono p n (simStates p n) hv (simStates_inv p hv n)
      linarith

end RecordLemmas

/-- Claim C1: for every valid parameter set (`policy_end_age > current_age`,
`monthly_benefit > 0`, nonnegative rate fractions,
`0 ≤ accumulation_months ≤ total_months`), `calculate_policy_outcomes`
returns a sequence of length `total_months = (policy_end_age - current_age) * 12`,
and the `Primary_CumulativeIncome` field of the record at index `i` equals
`monthly_benefit * (i+1)`. -/
theorem C1_length_and_baseline_income (p : Params) (hv : ValidParams p)
    (hA0 : 0 ≤ p.sip_duration_months) (hAT : p.sip_duration_months ≤ p.total_months) :
    ((calculate_policy_outcomes p).length : ℤ) = p.total_months ∧
    ∀ i (hi : i < (calculate_policy_outcomes p).length),
      ((calculate_policy_outcomes p).get ⟨i, hi⟩).Primary_CumulativeIncome
        = p.monthly_survival_benefit * (i + 1) := by
  constructor
  · rw [calc_length]
    exact Int.toNat_of_nonneg (le_of_lt (total_months_pos p hv.1))
  · intro i hi
    rw [calc_get, record_primaryCum]

theorem C1_witness :
    ValidParams pA ∧ 0 ≤ pA.sip_duration_months ∧
    pA.sip_duration_months ≤ pA.total_months ∧
    ((calculate_policy_outcomes pA).length : ℤ) = pA.total_months :=
  ⟨by decide, by decide, by decide,
    (C1_length_and_baseline_income pA (by decide) (by decide) (by decide)).1⟩

/-- Claim C6: for every valid parameter set (rates nonnegative), every
record in the output sequence satisfies `Hybrid_SWPCorpus_EOM ≥ 0`: the
decumulation balance is never negative at any month. -/
theorem C6_swp_corpus_nonneg (p : Params) (hv : ValidParams p)
    (hA0 : 0 ≤ p.sip_duration_months) :
    ∀ i (hi : i < (calculate_policy_outcomes p).length),
      0 ≤ ((calculate_policy_outcomes p).get ⟨i, hi⟩).Hybrid_SWPCorpus_EOM := by
  intro i hi
  rw [calc_get]
  unfold monthlyRecord
  by_cases h : (i : ℤ) < p.sip_duration_months
  · rw [stepMonth_sip p _ i h, (sipStep_snd p (simStates p i) i _ rfl).2.2.2.1]
  · rw [stepMonth_swp p _ i h, (swpStep_snd p (simStates p i) i _ rfl).2.2.2.1]
    exact clampCorpus_nonneg _

theorem C6_witness :
    ValidParams pA ∧ 0 ≤ pA.sip_duration_months ∧
    0 ≤ ((calculate_policy_outcomes pA).get ⟨0, by decide⟩).Hybrid_SWPCorpus_EOM :=
  ⟨by decide, by decide,
    C6_swp_corpus_nonneg pA (by decide) (by decide) 0 (by decide)⟩

/-- Claim C7: for every valid parameter set (`monthly_benefit > 0`,
nonnegative rates), the cumulative income fields `Primary_CumulativeIncome`
and `Hybrid_CumulativeTotalIncome` are non-decreasing across consecutive
records of the output sequence. -/
theorem C7_cumulative_income_nondecreasing (p : Params) (hv : ValidParams p)
    (hA0 : 0 ≤ p.sip_duration_months) :
    ∀ i (hi : i + 1 < (calculate_policy_outcomes p).length),
      ((calculate_policy_outcomes p).get ⟨i, Nat.lt_of_succ_lt hi⟩).Primary_CumulativeIncome
        ≤ ((calculate_policy_outcomes p).get ⟨i + 1, hi⟩).Primary_CumulativeIncome ∧
      ((calculate_policy_outcomes p).get ⟨i, Nat.lt_of_succ_lt hi⟩).Hybrid_CumulativeTotalIncome
        ≤ ((calculate_policy_outcomes p).get ⟨i + 1, hi⟩).Hybrid_CumulativeTotalIncome := by
  intro i hi
  rw [calc_get, calc_get]
  constructor
  · rw [record_primaryCum, record_primaryCum]
    have hb := hv.2.1
    have hstep : ((i : ℚ) + 1) ≤ ((i : ℚ) + 1 + 1) := by linarith
    have := mul_le_mul_of_nonneg_left hstep (le_of_lt hb)
    push_cast
    linarith
  · rw [record_hybridCum, record_hybridCum]
    have hmono := step_hybridCum_mono p (i + 1) (simStates p (i + 1)) hv
      (simStates_inv p hv (i + 1))
    have hb := hv.2.1
    show (simStates p (i + 1)).hybrid_cumulative_total_income
      ≤ (stepMonth p (i + 1) (simStates p (i + 1))).1.hybrid_cumulative_total_income
    linarith

theorem C7_witness :
    ValidParams pA ∧
    ((calculate_policy_outcomes pA).get ⟨0, by decide⟩).Primary_CumulativeIncome
      ≤ ((calculate_policy_outcomes pA).get ⟨1, by decide⟩).Primary_CumulativeIncome ∧
    ((calculate_policy_outcomes pA).get ⟨0, by decide⟩).Hybrid_CumulativeTotalIncome
      ≤ ((calculate_policy_outcomes pA).get ⟨1, by decide⟩).Hybrid_CumulativeTotalIncome :=
  ⟨by decide,
    (C7_cumulative_income_nondecreasing pA (by decide) (by decide) 0 (by decide)).1,
    (C7_cumulative_income_nondecreasing pA (by decide) (by decide) 0 (by decide)).2⟩

/-- Claim C10 (implicit): for every valid parameter set with nonnegative
rates and `monthly_benefit > 0`, every record satisfies
`Hybrid_CumulativeTotalIncome ≥ Primary_CumulativeIncome`: the hybrid
scenario's cumulative income never falls below the baseline's. -/
theorem C10_hybrid_cum_ge_primary_cum (p : Params) (hv : ValidParams p)
    (hA0 : 0 ≤ p.sip_duration_months) :
    ∀ i (hi : i < (calculate_policy_outcomes p).length),
      ((calculate_policy_outcomes p).get ⟨i, hi⟩).Primary_CumulativeIncome
        ≤ ((calculate_policy_outcomes p).get ⟨i, hi⟩).Hybrid_CumulativeTotalIncome := by
  intro i hi
  rw [calc_get, record_primaryCum, record_hybridCum]
  have hle := simStates_cum_le p hv (i + 1)
  rw [simStates_primary] at hle
  push_cast at hle
  linarith

/-- Claim C8: for every month `m` with `m < accumulation_months`, the
accumulation balance is updated as
`balance = balance * (1 + accumulation_annual_rate/12) + monthly_benefit`
(interest before contribution), and the record for such a month has
`Hybrid_SWPPayout = 0`, `Hybrid_SWPCorpus_EOM = 0` and hybrid total
monthly income equal to `monthly_benefit` only. -/
theorem C8_accumulation_step (p : Params) (hv : ValidParams p) (m : ℕ)
    (hm : (m : ℤ) < p.sip_duration_months)
    (hmL : m < (calculate_policy_outcomes p).length) :
    (simStates p (m + 1)).hybrid_sip_corpus
      = (simStates p m).hybrid_sip_corpus * (1 + p.sip_annual_return_rate / 12)
          + p.monthly_survival_benefit ∧
    ((calculate_policy_outcomes p).get ⟨m, hmL⟩).Hybrid_SWPPayout = 0 ∧
    ((calculate_policy_outcomes p).get ⟨m, hmL⟩).Hybrid_SWPCorpus_EOM = 0 ∧
    ((calculate_policy_outcomes p).get ⟨m, hmL⟩).Hybrid_TotalMonthlyIncome
      = p.monthly_survival_benefit := by
  have hrec := sipStep_snd p (simStates p m) m _ rfl
  rw [calc_get]
  refine ⟨?_, ?_, ?_, ?_⟩
  · show (stepMonth p m (simStates p m)).1.hybrid_sip_corpus = _
    rw [stepMonth_sip p _ m hm, sipStep_fst_sip]
    unfold Params.monthly_sip_return_rate
    ring
  · unfold monthlyRecord
    rw [stepMonth_sip p _ m hm]
    exact hrec.2.2.1
  · unfold monthlyRecord
    rw [stepMonth_sip p _ m hm]
    exact hrec.2.2.2.1
  · unfold monthlyRecord
    rw [stepMonth_sip p _ m hm]
    exact hrec.2.2.2.2.1

theorem C8_witness :
    ValidParams pB ∧ ((0 : ℕ) : ℤ) < pB.sip_duration_months ∧
    ((calculate_policy_outcomes pB).get ⟨0, by decide⟩).Hybrid_TotalMonthlyIncome
      = pB.monthly_survival_benefit :=
  ⟨by decide, by decide,
    (C8_accumulation_step pB (by decide) 0 (by decide) (by decide)).2.2.2⟩

/-- Claim C9: with nonnegative accumulation rate and positive benefit,
`Hybrid_SIPCorpus_EOM` is strictly increasing across records while
`MonthIndex < accumulation_months`, and every record with
`MonthIndex ≥ accumulation_months` carries the frozen SIP corpus value:
the balance at the end of the last accumulation month. -/
theorem C9_sip_corpus_growth_then_frozen (p : Params) (hv : ValidParams p)
    (hA0 : 0 ≤ p.sip_duration_months) :
    (∀ i (hi : i + 1 < (calculate_policy_outcomes p).length),
      (i : ℤ) + 1 < p.sip_duration_months →
        ((calculate_policy_outcomes p).get ⟨i, Nat.lt_of_succ_lt hi⟩).Hybrid_SIPCorpus_EOM
          < ((calculate_policy_outcomes p).get ⟨i + 1, hi⟩).Hybrid_SIPCorpus_EOM) ∧
    (∀ m (hm : m < (calculate_policy_outcomes p).length),
      p.sip_duration_months ≤ (m : ℤ) →
        ((calculate_policy_outcomes p).get ⟨m, hm⟩).Hybrid_SIPCorpus_EOM
          = (simStates p p.sip_duration_months.toNat).hybrid_sip_corpus) := by
  obtain ⟨hage, hb, hr, hg, hw, hpg⟩ := hv
  constructor
  · intro i hi hlt
    rw [calc_get, calc_get, record_sipEOM, record_sipEOM]
    have hinv := simStates_inv p ⟨hage, hb, hr, hg, hw, hpg⟩ (i + 1)
    have hcast : ((i + 1 : ℕ) : ℤ) < p.sip_duration_months := by push_cast; omega
    show _ < (stepMonth p (i + 1) (simStates p (i + 1))).1.hybrid_sip_corpus
    rw [stepMonth_sip p _ (i + 1) hcast, sipStep_fst_sip]
    have hmr : 0 ≤ (simStates p (i + 1)).hybrid_sip_corpus * p.monthly_sip_return_rate :=
      mul_nonneg hinv.1 (div_nonneg hr (by norm_num))
    linarith
  · intro m hm hge
    rw [calc_get, record_sipEOM]
    have hcast : (p.sip_duration_months.toNat : ℤ) = p.sip_duration_months :=
      Int.toNat_of_nonneg hA0
    exact simStates_sip_frozen p hA0 (m + 1) (by omega)

theorem C9_witness :
    ValidParams pB ∧ 0 ≤ pB.sip_duration_months ∧
    ((0 : ℕ) : ℤ) + 1 < pB.sip_duration_months ∧
    ((calculate_policy_outcomes pB).get ⟨0, by decide⟩).Hybrid_SIPCorpus_EOM
      < ((calculate_policy_outcomes pB).get ⟨1, by decide⟩).Hybrid_SIPCorpus_EOM :=
  ⟨by decide, by decide, by decide,
    (C9_sip_corpus_growth_then_frozen pB (by decide) (by decide)).1 0 (by decide) (by decide)⟩

theorem C10_witness :
    ValidParams pA ∧
    ((calculate_policy_outcomes pA).get ⟨0, by decide⟩).Primary_CumulativeIncome
      ≤ ((calculate_policy_outcomes pA).get ⟨0, by decide⟩).Hybrid_CumulativeTotalIncome :=
  ⟨by decide,
    C10_hybrid_cum_ge_primary_cum pA (by decide) (by decide) 0 (by decide)⟩

/-- Claim C3: for every valid parameter set with
`0 ≤ accumulation_months < total_months`, at the unique month
`m = accumulation_months` the step applies the one-time transfer: the
decumulation balance (post-transfer, pre-growth) is exactly the
accumulation balance at the end of month `m-1`, the withdrawal year
counter becomes 1, and the target monthly payout becomes that transferred
balance times `initial_withdrawal_rate / 12`; the month's record shows
`SWP_Year = 1`, that target, and a payout computed from the transferred
balance. -/
theorem C3_transition_month (p : Params) (hv : ValidParams p)
    (hA0 : 0 ≤ p.sip_duration_months)
    (hAT : p.sip_duration_months < p.total_months) :
    swpStateAfter p p.sip_duration_months.toNat (simStates p p.sip_duration_months.toNat)
      = swpTransfer p (simStates p p.sip_duration_months.toNat) ∧
    (swpTransfer p (simStates p p.sip_duration_months.toNat)).hybrid_swp_corpus
      = (simStates p p.sip_duration_months.toNat).hybrid_sip_corpus ∧
    (swpTransfer p (simStates p p.sip_duration_months.toNat)).swp_year_counter = 1 ∧
    (swpTransfer p (simStates p p.sip_duration_months.toNat)).current_target_swp_monthly_payout
      = (simStates p p.sip_duration_months.toNat).hybrid_sip_corpus
          * p.swp_initial_annual_withdrawal_rate / 12 ∧
    (simStates p (p.sip_duration_months.toNat + 1)).hybrid_swp_corpus
      = clampCorpus (swpWithdraw p
          (swpTransfer p (simStates p p.sip_duration_months.toNat))).2 ∧
    (0 < p.sip_duration_months.toNat →
      (simStates p p.sip_duration_months.toNat).hybrid_sip_corpus
        = (monthlyRecord p (p.sip_duration_months.toNat - 1)).Hybrid_SIPCorpus_EOM) ∧
    ∀ hi : p.sip_duration_months.toNat < (calculate_policy_outcomes p).length,
      ((calculate_policy_outcomes p).get ⟨p.sip_duration_months.toNat, hi⟩).SWP_Year = 1 ∧
      ((calculate_policy_outcomes p).get ⟨p.sip_duration_months.toNat, hi⟩).Target_SWP_Payout
        = (simStates p p.sip_duration_months.toNat).hybrid_sip_corpus
            * p.swp_initial_annual_withdrawal_rate / 12 ∧
      ((calculate_policy_outcomes p).get ⟨p.sip_duration_months.toNat, hi⟩).Hybrid_SWPPayout
        = (swpWithdraw p (swpTransfer p (simStates p p.sip_duration_months.toNat))).1 := by
  have hcast : (p.sip_duration_months.toNat : ℤ) = p.sip_duration_months :=
    Int.toNat_of_nonneg hA0
  have heq := swpStateAfter_of_eq p (simStates p p.sip_duration_months.toNat)
    p.sip_duration_months.toNat hcast
  have hnlt : ¬ (p.sip_duration_months.toNat : ℤ) < p.sip_duration_months := by omega
  refine ⟨heq, rfl, rfl, rfl, ?_, ?_, ?_⟩
  · show (stepMonth p _ _).1.hybrid_swp_corpus = _
    rw [stepMonth_swp p _ _ hnlt, swpStep_fst_swp, heq]
  · intro h0
    rw [record_sipEOM]
    have hp : p.sip_duration_months.toNat - 1 + 1 = p.sip_duration_months.toNat := by
      omega
    rw [hp]
  · intro hi
    have hrec := swpStep_snd p (simStates p p.sip_duration_months.toNat)
      p.sip_duration_months.toNat _ rfl
    rw [calc_get]
    unfold monthlyRecord
    rw [stepMonth_swp p _ _ hnlt]
    refine ⟨?_, ?_, ?_⟩
    · rw [hrec.2.2.2.2.2.2.1, heq]
      rfl
    · rw [hrec.2.2.2.2.2.2.2, heq]
      rfl
    · rw [hrec.2.2.1, heq]

theorem C3_witness :
    ValidParams pA ∧ 0 ≤ pA.sip_duration_months ∧
    pA.sip_duration_months < pA.total_months ∧
    (swpTransfer pA (simStates pA pA.sip_duration_months.toNat)).swp_year_counter = 1 :=
  ⟨by decide, by decide, by decide,
    (C3_transition_month pA (by decide) (by decide) (by decide)).2.2.1⟩

/-- Claim C4: after the transition, the target monthly payout, the
withdrawal year counter and the scheduled payout change exactly on months
`m` with `(m - accumulation_months) > 0` and
`(m - accumulation_months) % 12 = 0`: on such a month the counter is
incremented and the target becomes the previous scheduled payout times
`(1 + payout_growth_rate)`; on every other decumulation month after the
transition neither changes. -/
theorem C4_escalation_exactly_on_anniversaries (p : Params) (hv : ValidParams p)
    (hA0 : 0 ≤ p.sip_duration_months) (m : ℕ)
    (hm : p.sip_duration_months < (m : ℤ)) (hmT : (m : ℤ) < p.total_months) :
    (((m : ℤ) - p.sip_duration_months) % 12 = 0 →
      (simStates p (m + 1)).swp_year_counter = (simStates p m).swp_year_counter + 1 ∧
      (simStates p (m + 1)).current_target_swp_monthly_payout
        = (simStates p m).scheduled_last_year_swp_monthly_payout
            * (1 + p.swp_annual_payout_growth_rate) ∧
      (simStates p (m + 1)).scheduled_last_year_swp_monthly_payout
        = (simStates p m).scheduled_last_year_swp_monthly_payout
            * (1 + p.swp_annual_payout_growth_rate)) ∧
    (((m : ℤ) - p.sip_duration_months) % 12 ≠ 0 →
      (simStates p (m + 1)).swp_year_counter = (simStates p m).swp_year_counter ∧
      (simStates p (m + 1)).current_target_swp_monthly_payout
        = (simStates p m).current_target_swp_monthly_payout ∧
      (simStates p (m + 1)).scheduled_last_year_swp_monthly_payout
        = (simStates p m).scheduled_last_year_swp_monthly_payout) := by
  have hnlt : ¬ (m : ℤ) < p.sip_duration_months := by omega
  constructor
  · intro hx
    have hgt := swpStateAfter_of_gt p (simStates p m) m hm
    rw [if_pos hx] at hgt
    refine ⟨?_, ?_, ?_⟩
    · show (stepMonth p m (simStates p m)).1.swp_year_counter = _
      rw [stepMonth_swp p _ m hnlt, swpStep_fst_counter, hgt]
      rfl
    · show (stepMonth p m (simStates p m)).1.current_target_swp_monthly_payout = _
      rw [stepMonth_swp p _ m hnlt, swpStep_fst_target, hgt]
      rfl
    · show (stepMonth p m (simStates p m)).1.scheduled_last_year_swp_monthly_payout = _
      rw [stepMonth_swp p _ m hnlt, swpStep_fst_sched, hgt]
      rfl
  · intro hx
    have hgt := swpStateAfter_of_gt p (simStates p m) m hm
    rw [if_neg hx] at hgt
    refine ⟨?_, ?_, ?_⟩
    · show (stepMonth p m (simStates p m)).1.swp_year_counter = _
      rw [stepMonth_swp p _ m hnlt, swpStep_fst_counter, hgt]
    · show (stepMonth p m (simStates p m)).1.current_target_swp_monthly_payout = _
      rw [stepMonth_swp p _ m hnlt, swpStep_fst_target, hgt]
    · show (stepMonth p m (simStates p m)).1.scheduled_last_year_swp_monthly_payout = _
      rw [stepMonth_swp p _ m hnlt, swpStep_fst_sched, hgt]

theorem C4_witness :
    ValidParams pB ∧ 0 ≤ pB.sip_duration_months ∧
    pB.sip_duration_months < ((24 : ℕ) : ℤ) ∧ ((24 : ℕ) : ℤ) < pB.total_months ∧
    (((24 : ℕ) : ℤ) - pB.sip_duration_months) % 12 = 0 ∧
    (simStates pB (24 + 1)).swp_year_counter = (simStates pB 24).swp_year_counter + 1 :=
  ⟨by decide, by decide, by decide, by decide, by decide,
    ((C4_escalation_exactly_on_anniversaries pB (by decide) (by decide) 24
      (by decide) (by decide)).1 (by decide)).1⟩

/-- Claim C5: if a record in the decumulation phase has
`Hybrid_SWPCorpus_EOM = 0`, then every subsequent record has
`Hybrid_SWPCorpus_EOM = 0` and `Hybrid_SWPPayout = 0`: depletion is
terminal, even though escalation keeps running on later anniversaries. -/
theorem C5_depletion_terminal (p : Params) (hv : ValidParams p)
    (hA0 : 0 ≤ p.sip_duration_months) (m mp : ℕ)
    (hmA : p.sip_duration_months ≤ (m : ℤ)) (hmm : m < mp)
    (hmp : mp < (calculate_policy_outcomes p).length)
    (h0 : ((calculate_policy_outcomes p).get
        ⟨m, Nat.lt_trans hmm hmp⟩).Hybrid_SWPCorpus_EOM = 0) :
    ((calculate_policy_outcomes p).get ⟨mp, hmp⟩).Hybrid_SWPCorpus_EOM = 0 ∧
    ((calculate_policy_outcomes p).get ⟨mp, hmp⟩).Hybrid_SWPPayout = 0 := by
  rw [calc_get, record_swpEOM p m (by omega)] at h0
  have hall := swp_zero_propagate p (m + 1) (by omega) h0
  have hmpA : ¬ (mp : ℤ) < p.sip_duration_months := by omega
  have hz : (simStates p mp).hybrid_swp_corpus = 0 := hall mp (by omega)
  have hz2 : (swpStateAfter p mp (simStates p mp)).hybrid_swp_corpus = 0 := by
    rw [swpStateAfter_of_gt p _ mp (by omega)]
    split_ifs
    · rw [swpEscalate_swp_corpus]
      exact hz
    · exact hz
  have hw0 := swpWithdraw_of_zero p _ hz2
  have hrec := swpStep_snd p (simStates p mp) mp _ rfl
  rw [calc_get]
  unfold monthlyRecord
  rw [stepMonth_swp p _ mp hmpA]
  constructor
  · rw [hrec.2.2.2.1, hw0]
    simp [clampCorpus]
  · rw [hrec.2.2.1, hw0]

theorem C5_witness :
    ValidParams pA ∧ pA.sip_duration_months ≤ ((0 : ℕ) : ℤ) ∧
    ((calculate_policy_outcomes pA).get ⟨0, by decide⟩).Hybrid_SWPCorpus_EOM = 0 ∧
    ((calculate_policy_outcomes pA).get ⟨1, by decide⟩).Hybrid_SWPCorpus_EOM = 0 ∧
    ((calculate_policy_outcomes pA).get ⟨1, by decide⟩).Hybrid_SWPPayout = 0 := by
  have h0 : ((calculate_policy_outcomes pA).get ⟨0, by decide⟩).Hybrid_SWPCorpus_EOM = 0 := by
    rw [calc_get, record_swpEOM pA 0 (by decide)]
    show (stepMonth pA 0 (simStates pA 0)).1.hybrid_swp_corpus = 0
    rw [stepMonth_swp pA _ 0 (by decide), swpStep_fst_swp,
      swpStateAfter_of_eq pA _ 0 (by decide), swpWithdraw_of_zero pA _ rfl]
    simp [clampCorpus]
  have hmain := C5_depletion_terminal pA (by decide) (by decide) 0 1 (by decide)
    (by decide) (by decide) h0
  exact ⟨by decide, by decide, h0, hmain.1, hmain.2⟩

/-- Claim C2 counterexample: on `pBad` the derived quantities are
nonsensical (`accumulation_months = 24 > total_months = 12`), yet
`calculate_policy_outcomes` produces a full simulated 12-record sequence
instead of failing: the function contains no validation or error path. -/
theorem C2_counterexample :
    pBad.total_months < pBad.sip_duration_months ∧ 0 < pBad.total_months ∧
    (calculate_policy_outcomes pBad).length = 12 ∧
    calculate_policy_outcomes pBad ≠ [] := by
  refine ⟨by decide, by decide, ?_, ?_⟩
  · rw [calc_length]
    decide
  · exact List.length_pos.mp (by rw [calc_length]; decide)

/-- Claim C2 amended: `calculate_policy_outcomes` performs no validation
and has no error path, on any input.  The output always has length
`max(total_months, 0)`; whenever `total_months ≤ 0` the result is the
empty sequence rather than an error; and when
`accumulation_months > total_months` it returns a fully simulated
sequence in which every record is an accumulation-phase record (zero SWP
payout and zero SWP corpus). -/
theorem C2_amended_no_validation (p : Params) :
    (calculate_policy_outcomes p).length = p.total_months.toNat ∧
    (p.total_months ≤ 0 → calculate_policy_outcomes p = []) ∧
    (p.total_months < p.sip_duration_months →
      ∀ i (hi : i < (calculate_policy_outcomes p).length),
        ((calculate_policy_outcomes p).get ⟨i, hi⟩).Hybrid_SWPPayout = 0 ∧
        ((calculate_policy_outcomes p).get ⟨i, hi⟩).Hybrid_SWPCorpus_EOM = 0) := by
  refine ⟨calc_length p, ?_, ?_⟩
  · intro h
    unfold calculate_policy_outcomes
    rw [Int.toNat_of_nonpos h]
    rfl
  · intro hTA i hi
    have hlen : i < p.total_months.toNat := by
      rw [calc_length] at hi
      exact hi
    have hiA : (i : ℤ) < p.sip_duration_months := by omega
    have hrec := sipStep_snd p (simStates p i) i _ rfl
    rw [calc_get]
    unfold monthlyRecord
    rw [stepMonth_sip p _ i hiA]
    exact ⟨hrec.2.2.1, hrec.2.2.2.1⟩

theorem C2_amended_witness :
    pBad.total_months < pBad.sip_duration_months ∧
    (calculate_policy_outcomes pBad).length = pBad.total_months.toNat ∧
    ((calculate_policy_outcomes pBad).get ⟨0, by decide⟩).Hybrid_SWPPayout = 0 ∧
    pC.total_months ≤ 0 ∧
    calculate_policy_outcomes pC = [] :=
  ⟨by decide, (C2_amended_no_validation pBad).1,
    ((C2_amended_no_validation pBad).2.2 (by decide) 0 (by decide)).1,
    by decide, (C2_amended_no_validation pC).2.1 (by decide)⟩

end HybridPolicy
